import Mathlib

/-
Verification of the debounced-button driver (src/button.py) against its
specification.  The Python class `Button` is shallowly embedded: its fields
become a Lean structure, each method becomes a pure function from the old
state (plus the values the method reads from the hardware) to the new state
together with a trace of its externally visible effects (timer operations,
callback invocations).  Pin levels are natural numbers (the code compares
them with `==`/`!=` and against the literal 1), callbacks are modelled by a
Bool recording whether the optional handle is bound, and each recorded
callback invocation carries the instance state visible to the callback at
the moment it is invoked, which in the source is the state before any field
assignment of `_debounce_handler` has run.
-/

/-- Pull resistor configuration chosen in `Button.__init__`
(`Pin.PULL_UP` / `Pin.PULL_DOWN`). -/
inductive Pull
  | up
  | down
deriving DecidableEq, Repr

/-- Which of the two optional callbacks a handler invoked. -/
inductive CallbackEvent
  | press
  | release
deriving DecidableEq, Repr

/-- An operation performed on the platform timer capability:
`deinit h` stops the timer with handle `h`; `arm h p` creates a fresh
one-shot timer with handle `h` and period `p` milliseconds
(`Timer(-1)` followed by `init(period=p, mode=ONE_SHOT, ...)`). -/
inductive TimerAction
  | deinit (handle : Nat)
  | arm (handle : Nat) (period : Nat)
deriving DecidableEq, Repr

/-- The fields of the Python `Button` instance.  `press_callback` and
`release_callback` record whether the optional callback handle is bound
(truthy); `debounce_timer` holds the handle of the owned timer object, or
`none` for Python's `None`. -/
structure Button where
  idle_state : Nat
  debounce_time : Nat
  press_callback : Bool
  release_callback : Bool
  last_stable_state : Nat
  debounce_timer : Option Nat
deriving DecidableEq, Repr

/-- The configuration `Button.__init__` applies to the input pin:
`Pin(pin_num, Pin.IN, pull)` and the dual-edge interrupt registration
`pin.irq(trigger=IRQ_RISING | IRQ_FALLING, handler=self._irq_handler)`. -/
structure PinConfig where
  pin_num : Nat
  mode_in : Bool
  pull : Pull
  irq_rising : Bool
  irq_falling : Bool
deriving DecidableEq, Repr

/-- `Button.__init__`.  `debounce_time_arg` is `none` when the caller does
not supply the argument, in which case Python's default `50` applies;
`pin_value` is the level `self.pin.value()` returns at construction time;
`press_bound` / `release_bound` record whether the optional callbacks are
supplied.  Returns the constructed instance state together with the
configuration applied to the pin. -/
def Button.init (pin_num idle_state : Nat) (debounce_time_arg : Option Nat)
    (press_bound release_bound : Bool) (pin_value : Nat) : Button × PinConfig :=
  let debounce_time := debounce_time_arg.getD 50
  let pull := if idle_state = 1 then Pull.up else Pull.down
  ({ idle_state := idle_state
     debounce_time := debounce_time
     press_callback := press_bound
     release_callback := release_bound
     last_stable_state := pin_value
     debounce_timer := none },
   { pin_num := pin_num
     mode_in := true
     pull := pull
     irq_rising := true
     irq_falling := true })

/-- `Button._irq_handler`: if a debounce timer is owned, deinit it; then
create a fresh one-shot timer with period `debounce_time` and store its
handle.  `fresh` is the handle of the newly created timer object.  Returns
the new instance state and the list of timer operations performed, in
order. -/
def Button._irq_handler (b : Button) (fresh : Nat) : Button × List TimerAction :=
  let cancels : List TimerAction :=
    match b.debounce_timer with
    | some t => [TimerAction.deinit t]
    | none => []
  ({ b with debounce_timer := some fresh },
   cancels ++ [TimerAction.arm fresh b.debounce_time])

/-- `Button._debounce_handler`: read the current pin level
(`current_value`), compare it with `last_stable_state`; on a change invoke
the release callback if the new level equals `idle_state` (else the press
callback), each only when bound, then assign
`last_stable_state = current_value`; finally assign
`debounce_timer = None`.  Each invoked callback is recorded together with
the instance state visible to it at the moment of the call, which is the
state before either assignment has executed. -/
def Button._debounce_handler (b : Button) (current_value : Nat) :
    Button × List (CallbackEvent × Button) :=
  if current_value ≠ b.last_stable_state then
    let calls :=
      if current_value = b.idle_state then
        if b.release_callback then [(CallbackEvent.release, b)] else []
      else
        if b.press_callback then [(CallbackEvent.press, b)] else []
    ({ b with last_stable_state := current_value, debounce_timer := none }, calls)
  else
    ({ b with debounce_timer := none }, [])

/-- `Button.get_state`: `return self.last_stable_state != self.idle_state`. -/
def Button.get_state (b : Button) : Bool :=
  b.last_stable_state != b.idle_state

/-- `Button.get_state` viewed as a state-passing method call: it returns
its result together with the instance state after the call (the method body
performs no assignment). -/
def Button.get_state_op (b : Button) : Bool × Button :=
  (b.get_state, b)

/-- `Button._debounce_handler` in a Python semantics where an invoked
callback may raise.  `press_raises` / `release_raises` say whether the
bound callback raises when invoked.  On a raise the exception propagates
out of the handler before any field assignment has executed, so the
`Except.error` payload is the instance state at that moment. -/
def Button._debounce_handler_raising (b : Button) (current_value : Nat)
    (press_raises release_raises : Bool) :
    Except Button (Button × List (CallbackEvent × Button)) :=
  if current_value ≠ b.last_stable_state then
    if current_value = b.idle_state then
      if b.release_callback then
        if release_raises then Except.error b
        else Except.ok
          ({ b with last_stable_state := current_value, debounce_timer := none },
           [(CallbackEvent.release, b)])
      else Except.ok
        ({ b with last_stable_state := current_value, debounce_timer := none }, [])
    else
      if b.press_callback then
        if press_raises then Except.error b
        else Except.ok
          ({ b with last_stable_state := current_value, debounce_timer := none },
           [(CallbackEvent.press, b)])
      else Except.ok
        ({ b with last_stable_state := current_value, debounce_timer := none }, [])
  else
    Except.ok ({ b with debounce_timer := none }, [])

/-- The instance together with the set (as a list of handles) of armed,
not-yet-expired one-shot timers the platform currently holds for it.  A
`TimerAction.deinit` removes the handle, a `TimerAction.arm` adds it. -/
structure TimerSystem where
  btn : Button
  active : List Nat
deriving DecidableEq, Repr

/-- Effect of one timer operation on the set of armed timer handles. -/
def applyTimerAction (active : List Nat) : TimerAction → List Nat
  | TimerAction.deinit t => active.erase t
  | TimerAction.arm h _ => h :: active

/-- An asynchronous event delivered to the instance: a raw pin edge (the
IRQ allocates a timer object with handle `fresh`), or the expiry of an
armed one-shot timer while the pin reads `current_value`. -/
inductive SysEvent
  | edge (fresh : Nat)
  | expiry (current_value : Nat)
deriving DecidableEq, Repr

/-- One event step of the instance together with its timer bookkeeping: an
edge runs `_irq_handler` and applies its timer operations; an expiry fires
only for the armed timer whose handle the instance owns (a one-shot timer
removes itself from the armed set when it fires) and runs
`_debounce_handler`. -/
def TimerSystem.step (s : TimerSystem) : SysEvent → TimerSystem
  | SysEvent.edge fresh =>
      let r := s.btn._irq_handler fresh
      { btn := r.1, active := r.2.foldl applyTimerAction s.active }
  | SysEvent.expiry cv =>
      match s.btn.debounce_timer with
      | some t =>
          if t ∈ s.active then
            { btn := (s.btn._debounce_handler cv).1, active := s.active.erase t }
          else s
      | none => s

/-- Deliver a sequence of events in order. -/
def TimerSystem.run (s : TimerSystem) : List SysEvent → TimerSystem
  | [] => s
  | e :: es => (s.step e).run es

/-- A freshly constructed instance: no timer object exists yet. -/
def TimerSystem.start (pin_num idle_state : Nat) (debounce_time_arg : Option Nat)
    (press_bound release_bound : Bool) (pin_value : Nat) : TimerSystem :=
  { btn := (Button.init pin_num idle_state debounce_time_arg
              press_bound release_bound pin_value).1,
    active := [] }

/-- Timer-ownership invariant: the armed timers are exactly the one whose
handle the instance owns, so at most one is pending at any time. -/
def TimerSystem.Inv (s : TimerSystem) : Prop :=
  s.active = (match s.btn.debounce_timer with
              | some t => [t]
              | none => [])

/-- Timed simulation of one instance: the instance state, the current
electrical pin level, and the absolute expiry time of the armed one-shot
timer, if any. -/
structure Sim where
  btn : Button
  pin_level : Nat
  deadline : Option Nat
deriving DecidableEq, Repr

/-- The armed timer expires: `_debounce_handler` runs with the pin at its
current level. -/
def Sim.expire (s : Sim) : Sim × List (CallbackEvent × Button) :=
  let r := s.btn._debounce_handler s.pin_level
  ({ btn := r.1, pin_level := s.pin_level, deadline := none }, r.2)

/-- A raw edge at time `t` changes the pin level to `lvl` and runs
`_irq_handler`: the previous timer (if any) is cancelled and a fresh
one-shot timer is armed, expiring at `t + debounce_time`. -/
def Sim.edge (s : Sim) (t lvl fresh : Nat) : Sim :=
  { btn := (s.btn._irq_handler fresh).1,
    pin_level := lvl,
    deadline := some (t + s.btn.debounce_time) }

/-- Deliver timed edges `(t, lvl, fresh)` in order.  Before each edge, if
the armed timer's deadline has been reached, it fires first.  Returns the
final simulation state and all callback invocations, in order. -/
def Sim.runEdges (s : Sim) : List (Nat × Nat × Nat) → Sim × List (CallbackEvent × Button)
  | [] => (s, [])
  | (t, lvl, fresh) :: rest =>
      let fired :=
        match s.deadline with
        | some d => if d ≤ t then s.expire else (s, [])
        | none => (s, [])
      let tail := (fired.1.edge t lvl fresh).runEdges rest
      (tail.1, fired.2 ++ tail.2)

/-- Wait with no further edges until the armed timer (if any) fires. -/
def Sim.settle (s : Sim) : Sim × List (CallbackEvent × Button) :=
  match s.deadline with
  | some _ => s.expire
  | none => (s, [])

/-- Chatter condition: relative to an incoming armed deadline `dl`, every
edge of the list arrives strictly before the deadline armed at that point,
so no intermediate timer ever fires; each edge re-arms the deadline to its
own time plus the window `w`. -/
def noFireChain (w : Nat) : Option Nat → List (Nat × Nat × Nat) → Bool
  | _, [] => true
  | dl, (t, _, _) :: rest =>
      (match dl with
       | none => true
       | some d => decide (t < d)) && noFireChain w (some (t + w)) rest

/-- The level after the last edge of the list, or `dflt` if there is none. -/
def lastLevel (dflt : Nat) : List (Nat × Nat × Nat) → Nat
  | [] => dflt
  | (_, lvl, _) :: rest => lastLevel lvl rest


/-- On a spurious expiry (pin back at the stable level) the handler only
clears the timer field. -/
theorem debounce_handler_noop (b : Button) (cv : Nat)
    (h : cv = b.last_stable_state) :
    b._debounce_handler cv = ({ b with debounce_timer := none }, []) := by
  simp [Button._debounce_handler, h]

/-- The expiry handler always ends with `debounce_timer = None`. -/
theorem debounce_handler_clears (b : Button) (cv : Nat) :
    (b._debounce_handler cv).1.debounce_timer = none := by
  by_cases h : cv ≠ b.last_stable_state <;> simp [Button._debounce_handler, h]

/-- The expiry handler leaves every field other than `last_stable_state`
and `debounce_timer` untouched. -/
theorem debounce_handler_frame (b : Button) (cv : Nat) :
    (b._debounce_handler cv).1.idle_state = b.idle_state ∧
    (b._debounce_handler cv).1.debounce_time = b.debounce_time ∧
    (b._debounce_handler cv).1.press_callback = b.press_callback ∧
    (b._debounce_handler cv).1.release_callback = b.release_callback := by
  by_cases h : cv ≠ b.last_stable_state <;>
    simp [Button._debounce_handler, h]

/-- One step preserves the timer-ownership invariant. -/
theorem TimerSystem.step_inv (s : TimerSystem) (e : SysEvent)
    (h : s.Inv) : (s.step e).Inv := by
  rw [TimerSystem.Inv] at h
  cases e with
  | edge fresh =>
      cases hdt : s.btn.debounce_timer with
      | none =>
          rw [hdt] at h
          simp [TimerSystem.step, TimerSystem.Inv, Button._irq_handler, hdt, h,
            applyTimerAction]
      | some t =>
          rw [hdt] at h
          simp [TimerSystem.step, TimerSystem.Inv, Button._irq_handler, hdt, h,
            applyTimerAction]
  | expiry cv =>
      cases hdt : s.btn.debounce_timer with
      | none =>
          simp [TimerSystem.step, TimerSystem.Inv, hdt] at h ⊢
          exact h
      | some t =>
          rw [hdt] at h
          simp [TimerSystem.step, TimerSystem.Inv, hdt, h,
            debounce_handler_clears]

/-- Any event sequence preserves the timer-ownership invariant. -/
theorem TimerSystem.run_inv (es : List SysEvent) :
    ∀ (s : TimerSystem), s.Inv → (s.run es).Inv := by
  induction es with
  | nil => intro s h; exact h
  | cons e es ih =>
      intro s h
      exact ih (s.step e) (s.step_inv e h)

/-- Under the chatter condition no intermediate timer fires: a burst of
edges produces no callback, leaves `last_stable_state` (and the window)
unchanged, and leaves the pin at the level of the last edge. -/
theorem runEdges_quiet (es : List (Nat × Nat × Nat)) :
    ∀ (s : Sim), noFireChain s.btn.debounce_time s.deadline es = true →
    (s.runEdges es).2 = [] ∧
    (s.runEdges es).1.btn.last_stable_state = s.btn.last_stable_state ∧
    (s.runEdges es).1.btn.idle_state = s.btn.idle_state ∧
    (s.runEdges es).1.btn.debounce_time = s.btn.debounce_time ∧
    (s.runEdges es).1.pin_level = lastLevel s.pin_level es := by
  induction es with
  | nil =>
      intro s _
      exact ⟨rfl, rfl, rfl, rfl, rfl⟩
  | cons e rest ih =>
      obtain ⟨t, lvl, fresh⟩ := e
      intro s h
      cases hdl : s.deadline with
      | none =>
          rw [hdl] at h
          simp only [noFireChain, Bool.true_and] at h
          obtain ⟨e1, e2, e3, e4, e5⟩ := ih (s.edge t lvl fresh) h
          simp only [Sim.runEdges, hdl, List.nil_append]
          refine ⟨e1, ?_, ?_, ?_, ?_⟩
          · rw [e2]; rfl
          · rw [e3]; rfl
          · rw [e4]; rfl
          · rw [e5]; rfl
      | some d =>
          rw [hdl] at h
          simp only [noFireChain, Bool.and_eq_true, decide_eq_true_eq] at h
          obtain ⟨hlt, hrest⟩ := h
          have hnle : ¬ d ≤ t := Nat.not_le.mpr hlt
          obtain ⟨e1, e2, e3, e4, e5⟩ := ih (s.edge t lvl fresh) hrest
          simp only [Sim.runEdges, hdl, if_neg hnle, List.nil_append]
          refine ⟨e1, ?_, ?_, ?_, ?_⟩
          · rw [e2]; rfl
          · rw [e3]; rfl
          · rw [e4]; rfl
          · rw [e5]; rfl

/-- Claim C1: on a timer expiry where the current pin level differs from
`last_stable_state`, `_debounce_handler` fires exactly one callback —
`on_release` if the new level equals `idle_state`, otherwise `on_press`,
each invoked only when bound — and `last_stable_state` is set to the new
level (the pending timer is also cleared). -/
theorem C1_expiry_changed (b : Button) (cv : Nat)
    (h : cv ≠ b.last_stable_state) :
    (b._debounce_handler cv).2 =
      (if cv = b.idle_state then
        (if b.release_callback then [(CallbackEvent.release, b)] else [])
       else
        (if b.press_callback then [(CallbackEvent.press, b)] else [])) ∧
    (b._debounce_handler cv).1.last_stable_state = cv ∧
    (b._debounce_handler cv).1.debounce_timer = none := by
  refine ⟨?_, ?_, ?_⟩ <;> simp [Button._debounce_handler, h]

/-- Witness for C1: idle level 1, confirmed level 1, settled level 0, both
callbacks bound — exactly the press callback fires. -/
theorem C1_expiry_changed_witness :
    ((Button.mk 1 30 true true 1 (some 7))._debounce_handler 0).2 =
      [(CallbackEvent.press, Button.mk 1 30 true true 1 (some 7))] ∧
    ((Button.mk 1 30 true true 1 (some 7))._debounce_handler 0).1.last_stable_state = 0 ∧
    ((Button.mk 1 30 true true 1 (some 7))._debounce_handler 0).1.debounce_timer = none := by
  simpa using C1_expiry_changed (Button.mk 1 30 true true 1 (some 7)) 0 (by decide)

/-- Claim C2: on a timer expiry where the current pin level equals
`last_stable_state`, `_debounce_handler` invokes no callback and leaves
every field unchanged except that the pending timer is cleared. -/
theorem C2_expiry_unchanged (b : Button) (cv : Nat)
    (h : cv = b.last_stable_state) :
    b._debounce_handler cv = ({ b with debounce_timer := none }, []) :=
  debounce_handler_noop b cv h

/-- Witness for C2: the pin settled back to the confirmed level 1 — no
callback, only the timer field is cleared. -/
theorem C2_expiry_unchanged_witness :
    (Button.mk 1 30 true true 1 (some 7))._debounce_handler 1 =
      (Button.mk 1 30 true true 1 none, []) := by
  simpa using C2_expiry_unchanged (Button.mk 1 30 true true 1 (some 7)) 1 (by decide)

/-- Claim C3: in every state of the instance, `get_state` returns `true`
iff `last_stable_state` differs from `idle_state`; since `get_state` is a
function of the instance fields only, the invariant holds before and after
every operation. -/
theorem C3_get_state_iff (b : Button) :
    b.get_state = true ↔ b.last_stable_state ≠ b.idle_state := by
  simp [Button.get_state]

/-- Claim C4 as stated is false: the source invokes the callback before
the assignment `self.last_stable_state = current_value`, so the state the
callback observes still holds the previous confirmed level.  Concretely,
with idle level 1, confirmed level 1 and settled level 0, the press
callback fires while the observed state has `last_stable_state = 1 ≠ 0`
and its `get_state` is `false` (old state), although after the handler
returns the new confirmed state gives `get_state = true`. -/
theorem C4_counterexample :
    ((Button.mk 1 30 true true 1 (some 7))._debounce_handler 0).2 =
      [(CallbackEvent.press, Button.mk 1 30 true true 1 (some 7))] ∧
    (Button.mk 1 30 true true 1 (some 7)).last_stable_state = 1 ∧
    (Button.mk 1 30 true true 1 (some 7)).get_state = false ∧
    ((Button.mk 1 30 true true 1 (some 7))._debounce_handler 0).1.get_state = true := by
  decide

/-- A callback invocation recorded by the expiry handler always carries the
pre-handler instance state, and occurs only when the level changed. -/
theorem debounce_handler_call_mem (b : Button) (cv : Nat)
    (ev : CallbackEvent) (vis : Button)
    (h : (ev, vis) ∈ (b._debounce_handler cv).2) :
    vis = b ∧ cv ≠ b.last_stable_state := by
  simp only [Button._debounce_handler] at h
  by_cases hne : cv ≠ b.last_stable_state
  · rw [if_pos hne] at h
    refine ⟨?_, hne⟩
    by_cases hidle : cv = b.idle_state
    · rw [if_pos hidle] at h
      by_cases hrel : b.release_callback = true
      · rw [if_pos hrel] at h
        simp at h
        exact h.2
      · rw [if_neg hrel] at h
        simp at h
    · rw [if_neg hidle] at h
      by_cases hpr : b.press_callback = true
      · rw [if_pos hpr] at h
        simp at h
        exact h.2
      · rw [if_neg hpr] at h
        simp at h
  · rw [if_neg hne] at h
    simp at h

/-- Claim C4 amended: whenever `_debounce_handler` invokes a callback, the
instance state visible to the callback is the pre-handler state, whose
`last_stable_state` still holds the previous confirmed level (not the new
one), and only after the handler completes does `last_stable_state` equal
the new level; a callback observing `get_state()` therefore sees the old
confirmed state. -/
theorem C4_callback_sees_old_state (b : Button) (cv : Nat)
    (ev : CallbackEvent) (vis : Button)
    (h : (ev, vis) ∈ (b._debounce_handler cv).2) :
    vis = b ∧ vis.last_stable_state = b.last_stable_state ∧
    vis.last_stable_state ≠ cv ∧
    (b._debounce_handler cv).1.last_stable_state = cv := by
  obtain ⟨hvis, hne⟩ := debounce_handler_call_mem b cv ev vis h
  subst hvis
  refine ⟨rfl, rfl, fun hc => hne hc.symm, ?_⟩
  simp [Button._debounce_handler, hne]

/-- Witness for the amended C4: the press callback fired with idle 1,
prior level 1, new level 0, and the state it observed is the pre-handler
state with `last_stable_state = 1`. -/
theorem C4_callback_sees_old_state_witness :
    Button.mk 1 30 true true 1 (some 7) = Button.mk 1 30 true true 1 (some 7) ∧
    (Button.mk 1 30 true true 1 (some 7)).last_stable_state =
      (Button.mk 1 30 true true 1 (some 7)).last_stable_state ∧
    (Button.mk 1 30 true true 1 (some 7)).last_stable_state ≠ 0 ∧
    ((Button.mk 1 30 true true 1 (some 7))._debounce_handler 0).1.last_stable_state = 0 := by
  simpa using C4_callback_sees_old_state (Button.mk 1 30 true true 1 (some 7)) 0
    CallbackEvent.press (Button.mk 1 30 true true 1 (some 7)) (by decide)

/-- Claim C5: `_irq_handler` changes no field except `debounce_timer`, its
timer operations are exactly a deinit of the owned timer (when one exists)
followed by arming a fresh one-shot timer for `debounce_time` milliseconds,
and neither its result state (apart from the carried-along field) nor its
timer operations depend on `last_stable_state` — the field is neither read
for decisions nor modified. -/
theorem C5_irq_frame (b : Button) (fresh v : Nat) :
    (b._irq_handler fresh).1 = { b with debounce_timer := some fresh } ∧
    (b._irq_handler fresh).2 =
      (match b.debounce_timer with
       | some t => [TimerAction.deinit t]
       | none => []) ++ [TimerAction.arm fresh b.debounce_time] ∧
    (Button.mk b.idle_state b.debounce_time b.press_callback b.release_callback
        v b.debounce_timer)._irq_handler fresh =
      (Button.mk b.idle_state b.debounce_time b.press_callback b.release_callback
        v (some fresh), (b._irq_handler fresh).2) :=
  ⟨rfl, rfl, rfl⟩

/-- Claim C6: starting from a constructed instance, after any sequence of
raw-edge and timer-expiry events the armed timers are exactly the one the
instance owns, so at most one pending timer exists at any time. -/
theorem C6_at_most_one_timer (pin_num idle_state : Nat)
    (debounce_time_arg : Option Nat) (press_bound release_bound : Bool)
    (pin_value : Nat) (es : List SysEvent) :
    ((TimerSystem.start pin_num idle_state debounce_time_arg press_bound
        release_bound pin_value).run es).Inv ∧
    ((TimerSystem.start pin_num idle_state debounce_time_arg press_bound
        release_bound pin_value).run es).active.length ≤ 1 := by
  have h0 : (TimerSystem.start pin_num idle_state debounce_time_arg press_bound
      release_bound pin_value).Inv := rfl
  have hrun := TimerSystem.run_inv es _ h0
  refine ⟨hrun, ?_⟩
  rw [TimerSystem.Inv] at hrun
  rw [hrun]
  cases ((TimerSystem.start pin_num idle_state debounce_time_arg press_bound
      release_bound pin_value).run es).btn.debounce_timer <;> simp

/-- Claim C7: for a burst of edges in which every edge arrives before the
window armed by the previous edge expires, and whose last edge returns the
pin to the level it had at the start of the burst (the confirmed stable
level), no callback fires — neither during the burst nor when the last
window finally expires — and `last_stable_state` is unchanged; in total at
most one callback occurs for the settled burst. -/
theorem C7_chatter_no_callback (s : Sim) (es : List (Nat × Nat × Nat))
    (_hdl : s.deadline = none)
    (hsteady : s.btn.last_stable_state = s.pin_level)
    (hchain : noFireChain s.btn.debounce_time s.deadline es = true)
    (hreturn : lastLevel s.pin_level es = s.pin_level) :
    (s.runEdges es).2 = [] ∧
    ((s.runEdges es).1.settle).2 = [] ∧
    ((s.runEdges es).1.settle).1.btn.last_stable_state = s.btn.last_stable_state ∧
    ((s.runEdges es).2 ++ ((s.runEdges es).1.settle).2).length ≤ 1 := by
  obtain ⟨e1, e2, e3, e4, e5⟩ := runEdges_quiet es s hchain
  have hpl : (s.runEdges es).1.pin_level = (s.runEdges es).1.btn.last_stable_state := by
    rw [e5, hreturn, ← hsteady, e2]
  have hsettle : ((s.runEdges es).1.settle).2 = [] ∧
      ((s.runEdges es).1.settle).1.btn.last_stable_state =
        (s.runEdges es).1.btn.last_stable_state := by
    cases hd : (s.runEdges es).1.deadline with
    | none => simp [Sim.settle, hd]
    | some d =>
        simp only [Sim.settle, hd, Sim.expire]
        rw [debounce_handler_noop _ _ hpl]
        exact ⟨rfl, rfl⟩
  refine ⟨e1, hsettle.1, ?_, ?_⟩
  · rw [hsettle.2, e2]
  · rw [e1, hsettle.1]
    simp

/-- Witness for C7 (spec Scenario B): idle 1, window 30, pin starts at the
confirmed level 1; an edge to 0 at t=0 and an edge back to 1 at t=10
(inside the window); after settling, no callback fired and the confirmed
level is still 1. -/
theorem C7_chatter_no_callback_witness :
    ((Sim.mk (Button.mk 1 30 true true 1 none) 1 none).runEdges
        [(0, 0, 1), (10, 1, 2)]).2 = [] ∧
    (((Sim.mk (Button.mk 1 30 true true 1 none) 1 none).runEdges
        [(0, 0, 1), (10, 1, 2)]).1.settle).2 = [] ∧
    (((Sim.mk (Button.mk 1 30 true true 1 none) 1 none).runEdges
        [(0, 0, 1), (10, 1, 2)]).1.settle).1.btn.last_stable_state = 1 ∧
    (((Sim.mk (Button.mk 1 30 true true 1 none) 1 none).runEdges
        [(0, 0, 1), (10, 1, 2)]).2 ++
      (((Sim.mk (Button.mk 1 30 true true 1 none) 1 none).runEdges
        [(0, 0, 1), (10, 1, 2)]).1.settle).2).length ≤ 1 := by
  simpa using C7_chatter_no_callback (Sim.mk (Button.mk 1 30 true true 1 none) 1 none)
    [(0, 0, 1), (10, 1, 2)] rfl rfl (by decide) (by decide)

/-- Claim C8: construction configures the pin as input with a pull-up
exactly when `idle_state` is 1 (HIGH) and a pull-down otherwise (in
particular when it is 0, LOW), initializes `last_stable_state` to the level
read from the pin at construction time, registers a dual-edge (rising and
falling) interrupt handler, and uses a 50 ms debounce window when none is
supplied; no timer is pending initially. -/
theorem C8_construction (pin_num idle_state pin_value : Nat)
    (press_bound release_bound : Bool) :
    (Button.init pin_num idle_state none press_bound release_bound pin_value).2.pull =
      (if idle_state = 1 then Pull.up else Pull.down) ∧
    (Button.init pin_num idle_state none press_bound release_bound pin_value).2.mode_in = true ∧
    (Button.init pin_num idle_state none press_bound release_bound pin_value).2.irq_rising = true ∧
    (Button.init pin_num idle_state none press_bound release_bound pin_value).2.irq_falling = true ∧
    (Button.init pin_num idle_state none press_bound release_bound pin_value).2.pin_num = pin_num ∧
    (Button.init pin_num idle_state none press_bound release_bound pin_value).1.last_stable_state = pin_value ∧
    (Button.init pin_num idle_state none press_bound release_bound pin_value).1.debounce_time = 50 ∧
    (Button.init pin_num idle_state none press_bound release_bound pin_value).1.debounce_timer = none :=
  ⟨rfl, rfl, rfl, rfl, rfl, rfl, rfl, rfl⟩

/-- Claim C9: `get_state` is a pure read — as a method call it leaves the
instance unchanged — and is idempotent: a second call with no intervening
event returns the same value. -/
theorem C9_get_state_pure (b : Button) :
    b.get_state_op.2 = b ∧
    (b.get_state_op.2.get_state_op).1 = b.get_state_op.1 :=
  ⟨rfl, rfl⟩

/-- Claim C10: if the bound callback selected by a confirmed transition
raises, the expiry handler aborts before committing — the propagated
instance state has `last_stable_state` at its prior value and
`debounce_timer` still holding the expired handle. -/
theorem C10_callback_exception (b : Button) (cv : Nat)
    (press_raises release_raises : Bool)
    (hne : cv ≠ b.last_stable_state)
    (hraise : (cv = b.idle_state ∧ b.release_callback = true ∧ release_raises = true) ∨
              (cv ≠ b.idle_state ∧ b.press_callback = true ∧ press_raises = true)) :
    ∃ e, b._debounce_handler_raising cv press_raises release_raises = Except.error e ∧
      e.last_stable_state = b.last_stable_state ∧
      e.debounce_timer = b.debounce_timer := by
  refine ⟨b, ?_, rfl, rfl⟩
  rcases hraise with ⟨hidle, hrel, hrr⟩ | ⟨hidle, hpr, hprr⟩
  · subst hidle
    simp [Button._debounce_handler_raising, hne, hrel, hrr]
  · simp [Button._debounce_handler_raising, hne, hidle, hpr, hprr]

/-- Witness for C10: idle 1, prior level 1, settled level 0, press bound
and raising — the handler propagates with the state unchanged, the timer
field still holding handle 7. -/
theorem C10_callback_exception_witness :
    ∃ e, (Button.mk 1 30 true true 1 (some 7))._debounce_handler_raising 0 true false =
        Except.error e ∧
      e.last_stable_state = (Button.mk 1 30 true true 1 (some 7)).last_stable_state ∧
      e.debounce_timer = (Button.mk 1 30 true true 1 (some 7)).debounce_timer :=
  C10_callback_exception (Button.mk 1 30 true true 1 (some 7)) 0 true false
    (by decide) (by decide)
